import Mathlib

/-!
# Verification of the entity_client library

Shallow embedding of the `@sudobility/entity_client` TypeScript library:
the `EntityClient` HTTP transport (src/network/EntityClient.ts), the
TanStack-Query cache-key builders and query/mutation bindings
(src/hooks/useEntities.ts, src/hooks/useEntityMembers.ts,
src/hooks/useInvitations.ts), and the current-entity selection controller
(src/hooks/useCurrentEntity.tsx).

Conventions of the embedding:
* TypeScript `string | null` becomes `Option String`; JavaScript truthiness
  of such a value (both `null` and `""` are falsy) is `strTruthy`.
* The injected asynchronous capabilities (`getAuthToken`, `fetch`,
  `JSON.stringify` on externally-defined request types) are parameters of
  the embedded functions; their resolved values are given explicitly.
* A thrown JavaScript exception is modelled by an `Except.error` result or,
  for the underlying `fetch`/`response.json()` calls, by the
  `FetchOutcome.throws` / `FetchOutcome.jsonThrows` constructors.
* The list of HTTP requests actually issued by a call is returned
  alongside its result, so "no network call occurs" is `= []`.
-/

namespace EntityClientLib

/-- JavaScript truthiness of a `string | null` value: `null` and the empty
string are falsy, every other string is truthy. -/
def strTruthy : Option String → Bool
  | none => false
  | some s => !s.isEmpty

/-- JavaScript `a || b` for `a : string | null | undefined` with a string
default: the default is used when `a` is absent or the empty string. -/
def jsOrDefault (a : Option String) (d : String) : String :=
  match a with
  | none => d
  | some s => if s.isEmpty then d else s

/-! ## Cache-key builders (src/hooks/useEntities.ts, useEntityMembers.ts, useInvitations.ts) -/

/-- Source: `entityKeys.all = ['entities']` -/
def entityKeys.all : List String := ["entities"]

/-- Source: `entityKeys.lists = () => [...entityKeys.all, 'list']` -/
def entityKeys.lists : List String := entityKeys.all ++ ["list"]

/-- Source: `entityKeys.list = () => [...entityKeys.lists()]` -/
def entityKeys.list : List String := entityKeys.lists

/-- Source: `entityKeys.details = () => [...entityKeys.all, 'detail']` -/
def entityKeys.details : List String := entityKeys.all ++ ["detail"]

/-- Source: `entityKeys.detail = (slug) => [...entityKeys.details(), slug]` -/
def entityKeys.detail (slug : String) : List String := entityKeys.details ++ [slug]

/-- Source: `memberKeys.all = (entitySlug) => [...entityKeys.detail(entitySlug), 'members']` -/
def memberKeys.all (entitySlug : String) : List String :=
  entityKeys.detail entitySlug ++ ["members"]

/-- Source: `memberKeys.list = (entitySlug) => [...memberKeys.all(entitySlug), 'list']` -/
def memberKeys.list (entitySlug : String) : List String :=
  memberKeys.all entitySlug ++ ["list"]

/-- Source: `invitationKeys.all = ['invitations']` -/
def invitationKeys.all : List String := ["invitations"]

/-- Source: `invitationKeys.myList = () => [...invitationKeys.all, 'my']` -/
def invitationKeys.myList : List String := invitationKeys.all ++ ["my"]

/-- Source: `invitationKeys.entityList = (entitySlug) => [...entityKeys.detail(entitySlug), 'invitations']` -/
def invitationKeys.entityList (entitySlug : String) : List String :=
  entityKeys.detail entitySlug ++ ["invitations"]

/-- One application of a cache-key builder to its argument: the ten key
builders exported by the three hook modules, with the slug argument (when
the builder takes one) stored in the constructor. -/
inductive KeyBuilder where
  | entAll
  | entLists
  | entList
  | entDetails
  | entDetail (slug : String)
  | memAll (slug : String)
  | memList (slug : String)
  | invAll
  | invMyList
  | invEntityList (slug : String)
deriving DecidableEq, Repr

/-- The key produced by one builder application. -/
def buildKey : KeyBuilder → List String
  | .entAll => entityKeys.all
  | .entLists => entityKeys.lists
  | .entList => entityKeys.list
  | .entDetails => entityKeys.details
  | .entDetail slug => entityKeys.detail slug
  | .memAll slug => memberKeys.all slug
  | .memList slug => memberKeys.list slug
  | .invAll => invitationKeys.all
  | .invMyList => invitationKeys.myList
  | .invEntityList slug => invitationKeys.entityList slug

/-- Source: `queryKey` membership in a namespace: TanStack Query's
`invalidateQueries({queryKey: ns})` affects exactly the cached queries whose
key extends `ns` on the right. -/
def inNamespace (queryKey ns : List String) : Prop :=
  ∃ t, queryKey = ns ++ t

/-! ## Transport client (src/network/EntityClient.ts) -/

/-- The `ApiResponse<T>` envelope: `{success: boolean, data?: T, error?: string}`. -/
structure ApiResponse (α : Type) where
  success : Bool
  data? : Option α := none
  error? : Option String := none
deriving DecidableEq, Repr

/-- The options object the accessors pass to `request` (a `RequestInit`):
an optional method (fetch defaults a missing method to GET), an optional
JSON body, and optional extra headers (never supplied by any accessor). -/
structure RequestOptions where
  method : Option String := none
  body : Option String := none
  headers : List (String × String) := []
deriving DecidableEq, Repr

/-- One HTTP request as handed to `fetch`: resolved URL, effective method,
body, and header list. -/
structure HttpRequest where
  url : String
  method : String
  body : Option String := none
  headers : List (String × String) := []
deriving DecidableEq, Repr

/-- Behaviour of the underlying HTTP call for one request: `fetch` itself
rejects (network error), `response.json()` rejects (non-JSON body), or a
parsed envelope is produced. `throws`/`jsonThrows` carry the exception's
`message`. -/
inductive FetchOutcome (α : Type) where
  | throws (msg : String)
  | jsonThrows (msg : String)
  | returns (resp : ApiResponse α)
deriving DecidableEq, Repr

/-- The request `EntityClient.request` builds when a token is present:
`url = baseUrl + path`, the caller's method (GET when absent), the caller's
body, and headers `{'Content-Type': 'application/json',
Authorization: 'Bearer ' + token, ...options.headers}`. -/
def mkRequest (baseUrl token path : String) (options : RequestOptions) : HttpRequest :=
  { url := baseUrl ++ path
    method := options.method.getD "GET"
    body := options.body
    headers :=
      [("Content-Type", "application/json"), ("Authorization", "Bearer " ++ token)]
        ++ options.headers }

/-- Source: `EntityClient.request<T>(path, options)`. The resolved value of the
injected `getAuthToken` capability is `token`; `fetch` is the behaviour of
the network. The guard is `if (!token)`, so both `null` and the empty
string fail fast. Returns the envelope together with the list of HTTP
requests actually issued. -/
def request (baseUrl : String) (token : Option String) (path : String)
    (options : RequestOptions) (fetch : HttpRequest → FetchOutcome α) :
    ApiResponse α × List HttpRequest :=
  match token with
  | none => ({ success := false, error? := some "Not authenticated" }, [])
  | some t =>
    if t.isEmpty then ({ success := false, error? := some "Not authenticated" }, [])
    else
      let req := mkRequest baseUrl t path options
      match fetch req with
      | .throws msg => ({ success := false, error? := some msg }, [req])
      | .jsonThrows msg => ({ success := false, error? := some msg }, [req])
      | .returns resp => (resp, [req])

/-! ### Resource accessors

Each accessor forwards to `request` with a fixed path template and options,
exactly as in the source. Externally-defined request payload types
(`CreateEntityRequest`, `UpdateEntityRequest`, `InviteMemberRequest`,
`EntityRole`) are type parameters, and `JSON.stringify` restricted to such a
type is an explicit `stringify` parameter, since the accessors never inspect
the payload — they only serialize it into the body. -/

/-- The object literal `{ role }` serialized by `updateMemberRole`. -/
structure RoleBody (ρ : Type) where
  role : ρ
deriving DecidableEq, Repr

/-- Source: `listEntities(): request('/entities')` -/
def listEntities (baseUrl : String) (token : Option String)
    (fetch : HttpRequest → FetchOutcome α) : ApiResponse α × List HttpRequest :=
  request baseUrl token "/entities" {} fetch

/-- Source: `createEntity(request): request('/entities', {method: 'POST', body: JSON.stringify(request)})` -/
def createEntity (baseUrl : String) (token : Option String)
    (stringify : κ → String) (req : κ)
    (fetch : HttpRequest → FetchOutcome α) : ApiResponse α × List HttpRequest :=
  request baseUrl token "/entities"
    { method := some "POST", body := some (stringify req) } fetch

/-- Source: `getEntity(entitySlug): request('/entities/' + entitySlug)` -/
def getEntity (baseUrl : String) (token : Option String) (entitySlug : String)
    (fetch : HttpRequest → FetchOutcome α) : ApiResponse α × List HttpRequest :=
  request baseUrl token ("/entities/" ++ entitySlug) {} fetch

/-- Source: `updateEntity(entitySlug, request): request('/entities/' + entitySlug, {method: 'PUT', body: JSON.stringify(request)})` -/
def updateEntity (baseUrl : String) (token : Option String)
    (stringify : κ → String) (entitySlug : String) (req : κ)
    (fetch : HttpRequest → FetchOutcome α) : ApiResponse α × List HttpRequest :=
  request baseUrl token ("/entities/" ++ entitySlug)
    { method := some "PUT", body := some (stringify req) } fetch

/-- Source: `deleteEntity(entitySlug): request('/entities/' + entitySlug, {method: 'DELETE'})` -/
def deleteEntity (baseUrl : String) (token : Option String) (entitySlug : String)
    (fetch : HttpRequest → FetchOutcome α) : ApiResponse α × List HttpRequest :=
  request baseUrl token ("/entities/" ++ entitySlug) { method := some "DELETE" } fetch

/-- Source: `listMembers(entitySlug): request('/entities/' + entitySlug + '/members')` -/
def listMembers (baseUrl : String) (token : Option String) (entitySlug : String)
    (fetch : HttpRequest → FetchOutcome α) : ApiResponse α × List HttpRequest :=
  request baseUrl token ("/entities/" ++ entitySlug ++ "/members") {} fetch

/-- Source: `updateMemberRole(entitySlug, memberId, role): request('/entities/' + entitySlug + '/members/' + memberId, {method: 'PUT', body: JSON.stringify({role})})` -/
def updateMemberRole (baseUrl : String) (token : Option String)
    (stringify : RoleBody ρ → String) (entitySlug memberId : String) (role : ρ)
    (fetch : HttpRequest → FetchOutcome α) : ApiResponse α × List HttpRequest :=
  request baseUrl token ("/entities/" ++ entitySlug ++ "/members/" ++ memberId)
    { method := some "PUT", body := some (stringify { role := role }) } fetch

/-- Source: `removeMember(entitySlug, memberId): request('/entities/' + entitySlug + '/members/' + memberId, {method: 'DELETE'})` -/
def removeMember (baseUrl : String) (token : Option String)
    (entitySlug memberId : String)
    (fetch : HttpRequest → FetchOutcome α) : ApiResponse α × List HttpRequest :=
  request baseUrl token ("/entities/" ++ entitySlug ++ "/members/" ++ memberId)
    { method := some "DELETE" } fetch

/-- Source: `listEntityInvitations(entitySlug): request('/entities/' + entitySlug + '/invitations')` -/
def listEntityInvitations (baseUrl : String) (token : Option String) (entitySlug : String)
    (fetch : HttpRequest → FetchOutcome α) : ApiResponse α × List HttpRequest :=
  request baseUrl token ("/entities/" ++ entitySlug ++ "/invitations") {} fetch

/-- Source: `createInvitation(entitySlug, request): request('/entities/' + entitySlug + '/invitations', {method: 'POST', body: JSON.stringify(request)})` -/
def createInvitation (baseUrl : String) (token : Option String)
    (stringify : κ → String) (entitySlug : String) (req : κ)
    (fetch : HttpRequest → FetchOutcome α) : ApiResponse α × List HttpRequest :=
  request baseUrl token ("/entities/" ++ entitySlug ++ "/invitations")
    { method := some "POST", body := some (stringify req) } fetch

/-- Source: `cancelInvitation(entitySlug, invitationId): request('/entities/' + entitySlug + '/invitations/' + invitationId, {method: 'DELETE'})` -/
def cancelInvitation (baseUrl : String) (token : Option String)
    (entitySlug invitationId : String)
    (fetch : HttpRequest → FetchOutcome α) : ApiResponse α × List HttpRequest :=
  request baseUrl token ("/entities/" ++ entitySlug ++ "/invitations/" ++ invitationId)
    { method := some "DELETE" } fetch

/-- Source: `listMyInvitations(): request('/invitations')` -/
def listMyInvitations (baseUrl : String) (token : Option String)
    (fetch : HttpRequest → FetchOutcome α) : ApiResponse α × List HttpRequest :=
  request baseUrl token "/invitations" {} fetch

/-- Source: `acceptInvitation(token): request('/invitations/' + token + '/accept', {method: 'POST'})` -/
def acceptInvitation (baseUrl : String) (token : Option String) (invToken : String)
    (fetch : HttpRequest → FetchOutcome α) : ApiResponse α × List HttpRequest :=
  request baseUrl token ("/invitations/" ++ invToken ++ "/accept")
    { method := some "POST" } fetch

/-- Source: `declineInvitation(token): request('/invitations/' + token + '/decline', {method: 'POST'})` -/
def declineInvitation (baseUrl : String) (token : Option String) (invToken : String)
    (fetch : HttpRequest → FetchOutcome α) : ApiResponse α × List HttpRequest :=
  request baseUrl token ("/invitations/" ++ invToken ++ "/decline")
    { method := some "POST" } fetch

/-! ## Domain data (the fields of `@sudobility/types` this library reads) -/

/-- Source: `EntityType`: distinguishes the personal entity from organizations. -/
inductive EntityType where
  | personal
  | organization
deriving DecidableEq, Repr

/-- Source: `EntityWithRole`, restricted to the fields this library reads:
`id`, `entitySlug`, `entityType` (plus the caller's role, opaque here). -/
structure EntityWithRole where
  id : String
  entitySlug : String
  entityType : EntityType
  role : String := ""
deriving DecidableEq, Repr

/-! ## Query/mutation bindings (src/hooks/*.ts)

Each `useQuery` binding is embedded as the record of what the hook passes to
the cache engine: its `queryKey`, its `enabled` flag, and the behaviour of
its `queryFn`. The `queryFn` either throws (`Except.error`, for the `throw
new Error(...)` branches) or returns a value; alongside, the number of
client-method invocations it performs is recorded, so "the client is never
invoked" is `= 0`. -/

/-- What a `useQuery` call hands to the cache engine. -/
structure QueryBinding (α : Type) where
  queryKey : List String
  enabled : Bool
  run : Except String α × Nat

/-- Source: `useEntity(client, entitySlug)`: key `entityKeys.detail(slug)` or the
`['disabled']` sentinel, `enabled: !!entitySlug`, and a `queryFn` that
returns `null` without touching the client when the slug is absent, else
calls `client.getEntity(slug)` and throws on failure. `getEntity` is the
resolved behaviour of that client call. -/
def useEntityBinding (getEntity : String → ApiResponse EntityWithRole)
    (entitySlug : Option String) : QueryBinding (Option EntityWithRole) :=
  if h : strTruthy entitySlug then
    let s := entitySlug.get (by cases entitySlug <;> simp_all [strTruthy])
    { queryKey := entityKeys.detail s
      enabled := true
      run :=
        let r := getEntity s
        (if r.success then .ok r.data?
         else .error (jsOrDefault r.error? "Failed to fetch entity"), 1) }
  else
    { queryKey := ["disabled"], enabled := false, run := (.ok none, 0) }

/-- Source: `useEntityMembers(client, entitySlug)`: key `memberKeys.list(slug)` or
`['disabled']`, `enabled: !!entitySlug`, `queryFn` returns `[]` without a
client call when the slug is absent; member records are opaque (`μ`). -/
def useEntityMembersBinding (listMembers : String → ApiResponse (List μ))
    (entitySlug : Option String) : QueryBinding (List μ) :=
  if h : strTruthy entitySlug then
    let s := entitySlug.get (by cases entitySlug <;> simp_all [strTruthy])
    { queryKey := memberKeys.list s
      enabled := true
      run :=
        let r := listMembers s
        (match r.success, r.data? with
         | true, some d => .ok d
         | true, none => .error (jsOrDefault r.error? "Failed to fetch members")
         | false, _ => .error (jsOrDefault r.error? "Failed to fetch members"), 1) }
  else
    { queryKey := ["disabled"], enabled := false, run := (.ok [], 0) }

/-- Source: `useEntityInvitations(client, entitySlug)`: key
`invitationKeys.entityList(slug)` or `['disabled']`, `enabled: !!entitySlug`,
`queryFn` returns `[]` without a client call when the slug is absent;
invitation records are opaque (`ι`). -/
def useEntityInvitationsBinding (listInv : String → ApiResponse (List ι))
    (entitySlug : Option String) : QueryBinding (List ι) :=
  if h : strTruthy entitySlug then
    let s := entitySlug.get (by cases entitySlug <;> simp_all [strTruthy])
    { queryKey := invitationKeys.entityList s
      enabled := true
      run :=
        let r := listInv s
        (if r.success then .ok (r.data?.getD [])
         else .error (jsOrDefault r.error? "Failed to fetch invitations"), 1) }
  else
    { queryKey := ["disabled"], enabled := false, run := (.ok [], 0) }

/-- The query-key filters `useAcceptInvitation`'s `onSuccess` handler passes
to `queryClient.invalidateQueries`, in order: the caller's own invitation
list, then the entities-list namespace. -/
def acceptInvitationInvalidations : List (List String) :=
  [invitationKeys.myList, entityKeys.lists]

/-! ## Current-selection controller (src/hooks/useCurrentEntity.tsx) -/

/-- The storage key under which the selected slug is persisted
(`const STORAGE_KEY = 'currentEntitySlug'`). -/
def STORAGE_KEY : String := "currentEntitySlug"

/-- Source: `findPersonalEntity`: first entity of type `PERSONAL`, if any. -/
def findPersonalEntity (entities : List EntityWithRole) : Option EntityWithRole :=
  entities.find? fun e => e.entityType == EntityType.personal

/-- The `if (selectedSlug) { const found = entities.find(...); if (found)
return found; }` step: the first entity matching a truthy `selectedSlug`,
if any (`null` and `''` are falsy, so they match nothing). -/
def selectionMatch (selectedSlug : Option String)
    (entities : List EntityWithRole) : Option EntityWithRole :=
  match selectedSlug with
  | some s => if s.isEmpty then none else entities.find? fun e => e.entitySlug == s
  | none => none

/-- The `currentEntity` resolution of `CurrentEntityProvider` (the IIFE at
lines 190-207): `null` when unauthenticated or the list is empty; else the
first entity matching a truthy `selectedSlug` when one matches; else the
personal entity; else the first entity. -/
def resolveCurrentEntity (isAuthenticated : Bool) (selectedSlug : Option String)
    (entities : List EntityWithRole) : Option EntityWithRole :=
  if !isAuthenticated || entities.isEmpty then none
  else
    match selectionMatch selectedSlug entities with
    | some found => some found
    | none =>
      match findPersonalEntity entities with
      | some personal => some personal
      | none => entities.head?

/-- The mutable state of `CurrentEntityProvider` that the login/logout
effect touches: the `selectedSlug` state, the `isInitialized` state, the
`previousUserUid` ref, and the browser's `localStorage` (an association
list), present only when `hasWindow`. -/
structure ProviderState where
  selectedSlug : Option String
  isInitialized : Bool
  previousUserUid : Option String
  storage : List (String × String)
deriving DecidableEq, Repr

/-- Source: `localStorage.removeItem(key)`. -/
def removeItem (key : String) (storage : List (String × String)) :
    List (String × String) :=
  storage.filter fun kv => !(kv.1 == key)

/-- The user-change effect (lines 163-183). `currentUid = user?.uid ?? null`.
If `currentUid` is truthy and differs from the previous uid, a refetch of
the entity list is triggered (returned as the `Bool`). If `currentUid` is
falsy and the previous uid was truthy (logout), `selectedSlug` is cleared,
`isInitialized` reset, and the persisted entry removed when a window
exists. Finally the `previousUserUid` ref is updated. -/
def handleUserChange (hasWindow : Bool) (userUid : Option String)
    (s : ProviderState) : ProviderState × Bool :=
  let currentUid := userUid
  let refetchTriggered :=
    strTruthy currentUid && !(currentUid == s.previousUserUid)
  let s1 :=
    if !strTruthy currentUid && strTruthy s.previousUserUid then
      { s with
        selectedSlug := none
        isInitialized := false
        storage := if hasWindow then removeItem STORAGE_KEY s.storage else s.storage }
    else s
  ({ s1 with previousUserUid := currentUid }, refetchTriggered)

/-- The `clear()` callback (lines 263-269): clears the selection, resets
`isInitialized`, removes the persisted entry when a window exists. -/
def clear (hasWindow : Bool) (s : ProviderState) : ProviderState :=
  { s with
    selectedSlug := none
    isInitialized := false
    storage := if hasWindow then removeItem STORAGE_KEY s.storage else s.storage }

/-! ## Context hooks (src/hooks/useCurrentEntity.tsx, lines 312-341)

`createContext(null)` means `useContext` yields `null` outside any
provider; the context value is opaque here (`γ`). `useCurrentEntity` throws
(`Except.error`) when the context is `null`; `useCurrentEntityOptional`
returns it as-is. -/

/-- Source: `useCurrentEntity()`: throws unless inside a provider. -/
def useCurrentEntityHook (ctx : Option γ) : Except String γ :=
  match ctx with
  | none => .error "useCurrentEntity must be used within CurrentEntityProvider"
  | some c => .ok c

/-- Source: `useCurrentEntityOptional()`: the context value, `null` outside a
provider. -/
def useCurrentEntityOptionalHook (ctx : Option γ) : Option γ :=
  ctx

/-! ## Concrete instances used in counterexamples and witnesses -/

/-- The headers `request` attaches when no caller headers are supplied. -/
def stdHeaders (token : String) : List (String × String) :=
  [("Content-Type", "application/json"), ("Authorization", "Bearer " ++ token)]

/-- A personal entity, slug `a-personal`. -/
def demoPersonal : EntityWithRole :=
  { id := "ent-1", entitySlug := "a-personal", entityType := .personal }

/-- An organization entity, slug `b-org`. -/
def demoOrg : EntityWithRole :=
  { id := "ent-2", entitySlug := "b-org", entityType := .organization }

/-- An organization entity whose slug is the empty string. -/
def demoEmptySlugOrg : EntityWithRole :=
  { id := "ent-3", entitySlug := "", entityType := .organization }

/-- A provider state for an authenticated session with a persisted
selection. -/
def demoState : ProviderState :=
  { selectedSlug := some "a-personal", isInitialized := true,
    previousUserUid := some "uid-1",
    storage := [(STORAGE_KEY, "a-personal")] }

/-! ## Helper lemmas -/

/-- After `removeItem key`, a lookup of `key` finds nothing. -/
theorem lookup_removeItem (key : String) (storage : List (String × String)) :
    (removeItem key storage).lookup key = none := by
  induction storage with
  | nil => rfl
  | cons kv rest ih =>
    obtain ⟨k, v⟩ := kv
    by_cases hk : (k == key) = true
    · simpa [removeItem, List.filter_cons, hk] using ih
    · have hk' : (key == k) = false := by
        rw [Bool.not_eq_true, beq_eq_false_iff_ne] at hk
        exact beq_eq_false_iff_ne.mpr fun h => hk h.symm
      simp only [Bool.not_eq_true] at hk
      simpa [removeItem, List.filter_cons, hk, List.lookup, hk'] using ih

/-- A selection match is an element of the list it was found in. -/
theorem selectionMatch_mem {sel : Option String} {entities : List EntityWithRole}
    {e : EntityWithRole} (h : selectionMatch sel entities = some e) : e ∈ entities := by
  cases sel with
  | none => cases h
  | some s =>
    by_cases hs : s.isEmpty
    · simp [selectionMatch, hs] at h
    · simp only [selectionMatch, hs, Bool.false_eq_true, if_false] at h
      exact List.mem_of_find?_eq_some h

/-- If no entity in the list carries a truthy selected slug, the selection
step matches nothing. -/
theorem selectionMatch_eq_none {sel : Option String} {entities : List EntityWithRole}
    (h : ∀ s : String, sel = some s → s ≠ "" → ∀ e ∈ entities, e.entitySlug ≠ s) :
    selectionMatch sel entities = none := by
  cases sel with
  | none => rfl
  | some s =>
    by_cases hs : s.isEmpty
    · simp [selectionMatch, hs]
    · have hs' : s ≠ "" := fun hh => hs (by subst hh; rfl)
      simp only [selectionMatch, hs, Bool.false_eq_true, if_false]
      rw [List.find?_eq_none]
      intro e he
      simp only [Bool.not_eq_true, beq_eq_false_iff_ne]
      exact h s rfl hs' e he

/-- With a truthy token, `request` issues exactly the request built by
`mkRequest`. -/
theorem request_issued {α : Type} (baseUrl t path : String) (options : RequestOptions)
    (fetch : HttpRequest → FetchOutcome α) (ht : t ≠ "") :
    (request baseUrl (some t) path options fetch).2 = [mkRequest baseUrl t path options] := by
  have hE : t.isEmpty = false := by
    cases h' : t.isEmpty
    · rfl
    · exact absurd ((String.isEmpty_iff t).mp h') ht
  cases hf : fetch (mkRequest baseUrl t path options) <;>
    simp [request, hE, hf]

/-! ## Claim theorems -/

/-- C2: for every request made through the transport client, if the
injected `getAuthToken` capability resolves to no token (`null`), the
result is exactly `{success: false, error: 'Not authenticated'}` and no
HTTP request is issued (the issued-request list is empty), whatever the
path, options, and network behaviour. -/
theorem request_no_token_fails_fast {α : Type} (baseUrl path : String)
    (options : RequestOptions) (fetch : HttpRequest → FetchOutcome α) :
    request baseUrl none path options fetch =
      ({ success := false, data? := none, error? := some "Not authenticated" }, []) :=
  rfl

/-- C3: the transport client's `request` never raises. It is a total
function into envelopes, and for every behaviour of the underlying HTTP
call that throws — `fetch` itself rejecting (network error) or
`response.json()` rejecting (non-JSON body) — the thrown failure is caught
and converted into `{success: false, error: <message>}` carrying the
failure's message, with the one issued request recorded. -/
theorem request_converts_transport_failures {α : Type}
    (baseUrl t path : String) (options : RequestOptions)
    (fetch : HttpRequest → FetchOutcome α) (m : String) (ht : t ≠ "")
    (h : fetch (mkRequest baseUrl t path options) = .throws m
       ∨ fetch (mkRequest baseUrl t path options) = .jsonThrows m) :
    request baseUrl (some t) path options fetch =
      ({ success := false, data? := none, error? := some m },
        [mkRequest baseUrl t path options]) := by
  have hE : t.isEmpty = false := by
    cases h' : t.isEmpty
    · rfl
    · exact absurd ((String.isEmpty_iff t).mp h') ht
  rcases h with h | h <;> simp [request, hE, h]

/-- Witness for C3: a network error with message `network down` on a
concrete call is returned as `{success: false, error: 'network down'}`. -/
theorem request_converts_transport_failures_witness :
    request "https://api.example.com" (some "tok") "/entities" {}
        (fun _ => FetchOutcome.throws (α := Unit) "network down") =
      ({ success := false, data? := none, error? := some "network down" },
        [mkRequest "https://api.example.com" "tok" "/entities" {}]) :=
  request_converts_transport_failures "https://api.example.com" "tok" "/entities" {}
    (fun _ => FetchOutcome.throws "network down") "network down" (by decide)
    (Or.inl rfl)

/-- C9: every slug-requiring read binding with a `null` slug is inactive:
its cache key is the `['disabled']` sentinel, it is disabled (so the cache
engine never runs its `queryFn`), its `queryFn` would in any case resolve
immediately — to `null` for the single-entity read and to `[]` for the two
list reads — with zero client invocations; and the sentinel key differs
from the key of every real namespace builder at every argument (`==` on
`List String` is lawful equality). -/
theorem disabled_query_bindings_inactive :
    (∀ g : String → ApiResponse EntityWithRole,
        useEntityBinding g none =
          { queryKey := ["disabled"], enabled := false, run := (.ok none, 0) })
    ∧ (∀ (μ : Type) (g : String → ApiResponse (List μ)),
        useEntityMembersBinding g none =
          { queryKey := ["disabled"], enabled := false, run := (.ok [], 0) })
    ∧ (∀ (ι : Type) (g : String → ApiResponse (List ι)),
        useEntityInvitationsBinding g none =
          { queryKey := ["disabled"], enabled := false, run := (.ok [], 0) })
    ∧ (∀ b : KeyBuilder, (buildKey b == ["disabled"]) = false) :=
  ⟨fun _ => rfl, fun _ _ => rfl, fun _ _ => rfl, fun b => by cases b <;> rfl⟩

/-- C4: for every one of the fourteen resource-accessor operations, when a
(truthy) token is available the single HTTP request issued uses exactly the
path template and verb of the section 4.2 endpoint map, a JSON body equal
to the serialized input for the write operations that carry one (`none`
for reads and for the body-less DELETE/accept/decline calls), and the
`Content-Type`/`Authorization: Bearer <token>` headers of `stdHeaders`. -/
theorem accessor_endpoint_map {α β γ δ ρ : Type}
    (baseUrl t : String) (ht : t ≠ "")
    (fetch : HttpRequest → FetchOutcome α)
    (sCreate : β → String) (createReq : β)
    (sUpdate : γ → String) (updateReq : γ)
    (sInvite : δ → String) (inviteReq : δ)
    (sRole : RoleBody ρ → String) (role : ρ)
    (entitySlug memberId invitationId invToken : String) :
    (listEntities baseUrl (some t) fetch).2 =
      [{ url := baseUrl ++ "/entities", method := "GET", body := none,
         headers := stdHeaders t }]
    ∧ (createEntity baseUrl (some t) sCreate createReq fetch).2 =
      [{ url := baseUrl ++ "/entities", method := "POST",
         body := some (sCreate createReq), headers := stdHeaders t }]
    ∧ (getEntity baseUrl (some t) entitySlug fetch).2 =
      [{ url := baseUrl ++ ("/entities/" ++ entitySlug), method := "GET",
         body := none, headers := stdHeaders t }]
    ∧ (updateEntity baseUrl (some t) sUpdate entitySlug updateReq fetch).2 =
      [{ url := baseUrl ++ ("/entities/" ++ entitySlug), method := "PUT",
         body := some (sUpdate updateReq), headers := stdHeaders t }]
    ∧ (deleteEntity baseUrl (some t) entitySlug fetch).2 =
      [{ url := baseUrl ++ ("/entities/" ++ entitySlug), method := "DELETE",
         body := none, headers := stdHeaders t }]
    ∧ (listMembers baseUrl (some t) entitySlug fetch).2 =
      [{ url := baseUrl ++ ("/entities/" ++ entitySlug ++ "/members"),
         method := "GET", body := none, headers := stdHeaders t }]
    ∧ (updateMemberRole baseUrl (some t) sRole entitySlug memberId role fetch).2 =
      [{ url := baseUrl ++ ("/entities/" ++ entitySlug ++ "/members/" ++ memberId),
         method := "PUT", body := some (sRole { role := role }),
         headers := stdHeaders t }]
    ∧ (removeMember baseUrl (some t) entitySlug memberId fetch).2 =
      [{ url := baseUrl ++ ("/entities/" ++ entitySlug ++ "/members/" ++ memberId),
         method := "DELETE", body := none, headers := stdHeaders t }]
    ∧ (listEntityInvitations baseUrl (some t) entitySlug fetch).2 =
      [{ url := baseUrl ++ ("/entities/" ++ entitySlug ++ "/invitations"),
         method := "GET", body := none, headers := stdHeaders t }]
    ∧ (createInvitation baseUrl (some t) sInvite entitySlug inviteReq fetch).2 =
      [{ url := baseUrl ++ ("/entities/" ++ entitySlug ++ "/invitations"),
         method := "POST", body := some (sInvite inviteReq),
         headers := stdHeaders t }]
    ∧ (cancelInvitation baseUrl (some t) entitySlug invitationId fetch).2 =
      [{ url := baseUrl ++ ("/entities/" ++ entitySlug ++ "/invitations/" ++ invitationId),
         method := "DELETE", body := none, headers := stdHeaders t }]
    ∧ (listMyInvitations baseUrl (some t) fetch).2 =
      [{ url := baseUrl ++ "/invitations", method := "GET", body := none,
         headers := stdHeaders t }]
    ∧ (acceptInvitation baseUrl (some t) invToken fetch).2 =
      [{ url := baseUrl ++ ("/invitations/" ++ invToken ++ "/accept"),
         method := "POST", body := none, headers := stdHeaders t }]
    ∧ (declineInvitation baseUrl (some t) invToken fetch).2 =
      [{ url := baseUrl ++ ("/invitations/" ++ invToken ++ "/decline"),
         method := "POST", body := none, headers := stdHeaders t }] :=
  ⟨request_issued baseUrl t "/entities" {} fetch ht,
   request_issued baseUrl t "/entities" _ fetch ht,
   request_issued baseUrl t ("/entities/" ++ entitySlug) {} fetch ht,
   request_issued baseUrl t ("/entities/" ++ entitySlug) _ fetch ht,
   request_issued baseUrl t ("/entities/" ++ entitySlug) _ fetch ht,
   request_issued baseUrl t ("/entities/" ++ entitySlug ++ "/members") {} fetch ht,
   request_issued baseUrl t ("/entities/" ++ entitySlug ++ "/members/" ++ memberId) _ fetch ht,
   request_issued baseUrl t ("/entities/" ++ entitySlug ++ "/members/" ++ memberId) _ fetch ht,
   request_issued baseUrl t ("/entities/" ++ entitySlug ++ "/invitations") {} fetch ht,
   request_issued baseUrl t ("/entities/" ++ entitySlug ++ "/invitations") _ fetch ht,
   request_issued baseUrl t ("/entities/" ++ entitySlug ++ "/invitations/" ++ invitationId) _ fetch ht,
   request_issued baseUrl t "/invitations" {} fetch ht,
   request_issued baseUrl t ("/invitations/" ++ invToken ++ "/accept") _ fetch ht,
   request_issued baseUrl t ("/invitations/" ++ invToken ++ "/decline") _ fetch ht⟩

/-- Witness for C4: the concrete `listEntities` call against
`https://api.example.com` with token `tok` issues
`GET https://api.example.com/entities` with the standard headers. -/
theorem accessor_endpoint_map_witness :
    (listEntities "https://api.example.com" (some "tok")
        (fun _ => FetchOutcome.returns (α := Unit) { success := true })).2 =
      [{ url := "https://api.example.com" ++ "/entities", method := "GET",
         body := none, headers := stdHeaders "tok" }] :=
  (accessor_endpoint_map (β := Unit) (γ := Unit) (δ := Unit) (ρ := Unit)
    "https://api.example.com" "tok" (by decide)
    (fun _ => FetchOutcome.returns { success := true })
    (fun _ => "") () (fun _ => "") () (fun _ => "") () (fun _ => "") ()
    "a-slug" "m-id" "i-id" "i-token").1

/-- C5: on the authentication-lost transition (the user identity becomes
absent where a truthy one existed), the controller sets `selectedSlug` to
`null`, resets `isInitialized` to `false`, and removes the persisted
selection entry from durable storage (here: in a browser environment,
`hasWindow = true`); the `previousUserUid` ref is updated to `null`. -/
theorem logout_clears_selection (s : ProviderState)
    (h : strTruthy s.previousUserUid = true) :
    (handleUserChange true none s).1.selectedSlug = none
    ∧ (handleUserChange true none s).1.isInitialized = false
    ∧ (handleUserChange true none s).1.storage.lookup STORAGE_KEY = none
    ∧ (handleUserChange true none s).1.previousUserUid = none := by
  have hcond : (!strTruthy (none : Option String) && strTruthy s.previousUserUid) = true := by
    rw [h]; rfl
  simp only [handleUserChange, hcond, if_true]
  refine ⟨?_, ?_, ?_, ?_⟩ <;> first
    | rfl
    | trivial
    | exact lookup_removeItem STORAGE_KEY s.storage

/-- Witness for C5: from an authenticated state with uid `uid-1`, selection
`a-personal` persisted under the storage key, logging out clears all three
and the ref. -/
theorem logout_clears_selection_witness :
    (handleUserChange true none demoState).1.selectedSlug = none
    ∧ (handleUserChange true none demoState).1.isInitialized = false
    ∧ (handleUserChange true none demoState).1.storage.lookup STORAGE_KEY = none
    ∧ (handleUserChange true none demoState).1.previousUserUid = none :=
  logout_clears_selection demoState rfl

/-- C6: invariant of the current-selection state — in every state
(authenticated or not, any selection, any entity list), the resolved
current entity is either `null` or an element of the current entity list;
the controller never resolves an entity absent from the list. -/
theorem resolveCurrentEntity_mem_or_none (auth : Bool) (sel : Option String)
    (entities : List EntityWithRole) :
    resolveCurrentEntity auth sel entities = none
    ∨ ∃ e ∈ entities, resolveCurrentEntity auth sel entities = some e := by
  unfold resolveCurrentEntity
  by_cases hc : (!auth || entities.isEmpty) = true
  · left
    simp [hc]
  · rw [if_neg hc]
    rcases hsel : selectionMatch sel entities with _ | found
    · rcases hper : findPersonalEntity entities with _ | p
      · cases entities with
        | nil => simp at hc
        | cons a tl =>
          right
          exact ⟨a, List.Mem.head tl, by simp [hsel, hper]⟩
      · right
        exact ⟨p, List.mem_of_find?_eq_some hper, by simp [hsel, hper]⟩
    · right
      exact ⟨found, selectionMatch_mem hsel, by simp [hsel]⟩

/-- C7 counterexample: the claim fails on the code in two places, both
exhibited here. First, two different (builder, argument) pairs collide —
`entityKeys.lists()` and `entityKeys.list()` are distinct builders (the
latter is defined as a copy of the former) and produce the identical key
`['entities', 'list']` (`==` on `KeyBuilder` is lawful equality, so the
second conjunct states the two builder applications are distinct). Second,
the claimed separate root `invitations → {my, entity(slug)}` does not hold
for the entity-scoped invitation keys: `invitationKeys.entityList('acme')`
is `['entities', 'detail', 'acme', 'invitations']`, which does not extend
the `['invitations']` root but does extend `entityKeys.detail('acme')`;
only the `my` list extends the `['invitations']` root. -/
theorem keyBuilder_tree_counterexample :
    buildKey KeyBuilder.entLists = buildKey KeyBuilder.entList
    ∧ (KeyBuilder.entLists == KeyBuilder.entList) = false
    ∧ invitationKeys.entityList "acme" = ["entities", "detail", "acme", "invitations"]
    ∧ (List.isPrefixOf invitationKeys.all (invitationKeys.entityList "acme")) = false
    ∧ (List.isPrefixOf (entityKeys.detail "acme") (invitationKeys.entityList "acme")) = true
    ∧ (List.isPrefixOf invitationKeys.all invitationKeys.myList) = true :=
  ⟨rfl, rfl, rfl, rfl, rfl, rfl⟩

/-- C7 (amended): the cache-key builders are pure and deterministic (equal
builder applications give equal keys); any two builder applications with
equal keys are equal, except for the single intentional coincidence
`entityKeys.lists() = entityKeys.list()`; the keys form the tree
`entities → {list | detail(slug) → {members → {list}, invitations}}` where
the entity-scoped invitation key (`invitationKeys.entityList`) is the
`invitations` leaf under `detail(slug)`; and the separate root
`invitations` holds only the caller's own list (`my`) — the final conjunct
proves no other builder's key lies in the `['invitations']` namespace. -/
theorem buildKey_deterministic_distinct :
    (∀ b₁ b₂ : KeyBuilder, b₁ = b₂ → buildKey b₁ = buildKey b₂)
    ∧ (∀ b₁ b₂ : KeyBuilder, buildKey b₁ = buildKey b₂ →
        b₁ = b₂
        ∨ (b₁ = KeyBuilder.entLists ∧ b₂ = KeyBuilder.entList)
        ∨ (b₁ = KeyBuilder.entList ∧ b₂ = KeyBuilder.entLists))
    ∧ entityKeys.all = ["entities"]
    ∧ entityKeys.lists = entityKeys.all ++ ["list"]
    ∧ entityKeys.details = entityKeys.all ++ ["detail"]
    ∧ (∀ s, entityKeys.detail s = entityKeys.details ++ [s])
    ∧ (∀ s, memberKeys.all s = entityKeys.detail s ++ ["members"])
    ∧ (∀ s, memberKeys.list s = memberKeys.all s ++ ["list"])
    ∧ (∀ s, invitationKeys.entityList s = entityKeys.detail s ++ ["invitations"])
    ∧ invitationKeys.all = ["invitations"]
    ∧ invitationKeys.myList = invitationKeys.all ++ ["my"]
    ∧ (∀ b : KeyBuilder, inNamespace (buildKey b) invitationKeys.all →
        b = KeyBuilder.invAll ∨ b = KeyBuilder.invMyList) := by
  refine ⟨fun b₁ b₂ h => h ▸ rfl, ?_, rfl, rfl, rfl, fun _ => rfl, fun _ => rfl,
    fun _ => rfl, fun _ => rfl, rfl, rfl, ?_⟩
  · intro b₁ b₂ h
    cases b₁ <;> cases b₂ <;>
      simp_all [buildKey, entityKeys.all, entityKeys.lists, entityKeys.list,
        entityKeys.details, entityKeys.detail, memberKeys.all, memberKeys.list,
        invitationKeys.all, invitationKeys.myList, invitationKeys.entityList]
  · rintro b ⟨t, h⟩
    cases b <;>
      simp_all [buildKey, inNamespace, entityKeys.all, entityKeys.lists,
        entityKeys.list, entityKeys.details, entityKeys.detail, memberKeys.all,
        memberKeys.list, invitationKeys.all, invitationKeys.myList,
        invitationKeys.entityList]

/-- Witness for C7: determinism applied at `detail('a')`,
almost-injectivity applied at the colliding pair, and the
invitations-root conjunct applied at the `my` list key. -/
theorem buildKey_deterministic_distinct_witness :
    buildKey (KeyBuilder.entDetail "a") = buildKey (KeyBuilder.entDetail "a")
    ∧ (KeyBuilder.entLists = KeyBuilder.entList
       ∨ (KeyBuilder.entLists = KeyBuilder.entLists ∧ KeyBuilder.entList = KeyBuilder.entList)
       ∨ (KeyBuilder.entLists = KeyBuilder.entList ∧ KeyBuilder.entList = KeyBuilder.entLists))
    ∧ (KeyBuilder.invMyList = KeyBuilder.invAll ∨ KeyBuilder.invMyList = KeyBuilder.invMyList) :=
  ⟨buildKey_deterministic_distinct.1 (KeyBuilder.entDetail "a") (KeyBuilder.entDetail "a") rfl,
   buildKey_deterministic_distinct.2.1 KeyBuilder.entLists KeyBuilder.entList rfl,
   buildKey_deterministic_distinct.2.2.2.2.2.2.2.2.2.2.2 KeyBuilder.invMyList ⟨["my"], rfl⟩⟩

/-- C1 counterexample: in the authenticated state with
`selectedSlug = ''` and list `[demoPersonal, demoEmptySlugOrg]`, an entity
whose slug equals `selectedSlug` is in the list (`demoEmptySlugOrg`), yet
the code resolves the personal entity instead — the `if (selectedSlug)`
guard treats the empty string as no selection, so priority rule (1) as
stated fails on this state. -/
theorem resolveCurrentEntity_empty_selection_counterexample :
    demoEmptySlugOrg ∈ [demoPersonal, demoEmptySlugOrg]
    ∧ demoEmptySlugOrg.entitySlug = ""
    ∧ resolveCurrentEntity true (some "") [demoPersonal, demoEmptySlugOrg] = some demoPersonal
    ∧ (demoPersonal.entitySlug == "") = false :=
  ⟨List.Mem.tail demoPersonal (List.Mem.head []), rfl, rfl, rfl⟩

/-- C1 (amended): for every authenticated state whose selected slug is not
the (falsy) empty string, resolution follows the stated priority:
(1) the first entity whose slug equals `selectedSlug` when one is in the
current list, (2) the personal entity when the selection is null, empty,
or absent from the list, (3) the first entity in list order when no
personal entity exists, (4) `null` when the list is empty. An empty-string
`selectedSlug` is treated exactly like no selection. -/
theorem resolveCurrentEntity_priority (sel : Option String)
    (entities : List EntityWithRole) :
    (entities = [] → resolveCurrentEntity true sel entities = none)
    ∧ (∀ s : String, sel = some s → s ≠ "" →
        ∀ e ∈ entities, e.entitySlug = s →
        ∃ e' ∈ entities, e'.entitySlug = s ∧
          resolveCurrentEntity true sel entities = some e')
    ∧ ((∀ s : String, sel = some s → s ≠ "" → ∀ e ∈ entities, e.entitySlug ≠ s) →
        ∀ p : EntityWithRole, findPersonalEntity entities = some p →
        p ∈ entities ∧ p.entityType = EntityType.personal ∧
          resolveCurrentEntity true sel entities = some p)
    ∧ ((∀ s : String, sel = some s → s ≠ "" → ∀ e ∈ entities, e.entitySlug ≠ s) →
        findPersonalEntity entities = none →
        resolveCurrentEntity true sel entities = entities.head?) := by
  refine ⟨?_, ?_, ?_, ?_⟩
  · rintro rfl
    rfl
  · intro s hsel hs e he hslug
    subst hsel
    have hfindSome : (entities.find? fun e => e.entitySlug == s).isSome := by
      rw [List.find?_isSome]
      exact ⟨e, he, by simp [hslug]⟩
    obtain ⟨e', hfind⟩ := Option.isSome_iff_exists.mp hfindSome
    have hmem := List.mem_of_find?_eq_some hfind
    have hslug' : e'.entitySlug = s := by simpa using List.find?_some hfind
    have hniE : entities.isEmpty = false := by
      cases entities
      · cases he
      · rfl
    have hsE : s.isEmpty = false := by
      cases h' : s.isEmpty
      · rfl
      · exact absurd ((String.isEmpty_iff s).mp h') hs
    refine ⟨e', hmem, hslug', ?_⟩
    simp [resolveCurrentEntity, selectionMatch, hniE, hsE, hfind]
  · intro hmiss p hp
    have hmem := List.mem_of_find?_eq_some hp
    have htype : p.entityType = EntityType.personal := by
      simpa using List.find?_some hp
    have hniE : entities.isEmpty = false := by
      cases entities
      · cases hmem
      · rfl
    have hselNone := selectionMatch_eq_none hmiss
    exact ⟨hmem, htype, by simp [resolveCurrentEntity, hniE, hselNone, hp]⟩
  · intro hmiss hper
    have hselNone := selectionMatch_eq_none hmiss
    cases entities with
    | nil => rfl
    | cons a tl => simp [resolveCurrentEntity, hselNone, hper]

/-- Witness for C1: the spec's stale-selection scenario — persisted
selection `stale-slug` absent from `[a-personal, b-org]` falls back to the
personal entity `a-personal`. -/
theorem resolveCurrentEntity_priority_witness :
    demoPersonal ∈ [demoPersonal, demoOrg]
    ∧ demoPersonal.entityType = EntityType.personal
    ∧ resolveCurrentEntity true (some "stale-slug") [demoPersonal, demoOrg] =
        some demoPersonal :=
  (resolveCurrentEntity_priority (some "stale-slug") [demoPersonal, demoOrg]).2.2.1
    (by
      intro s hs hne e he
      injection hs with h'
      subst h'
      rcases he with _ | ⟨_, he⟩
      · decide
      · rcases he with _ | ⟨_, he⟩
        · decide
        · cases he)
    demoPersonal rfl

/-- C8: on successful invitation acceptance, exactly two cache-key
namespaces are invalidated — the caller's own invitation list and the
global entities-list namespace, in that order — and no query in any
entity-detail namespace (for any slug, hence in particular for the newly
joined entity) is invalidated by those filters. -/
theorem acceptInvitation_invalidation_scope :
    acceptInvitationInvalidations = [invitationKeys.myList, entityKeys.lists]
    ∧ ∀ (slug : String) (qk : List String),
        inNamespace qk (entityKeys.detail slug) →
        ∀ f ∈ acceptInvitationInvalidations, ¬ inNamespace qk f := by
  refine ⟨rfl, ?_⟩
  rintro slug qk ⟨t, rfl⟩ f hf ⟨u, hu⟩
  simp only [acceptInvitationInvalidations, List.mem_cons, List.mem_singleton,
    List.not_mem_nil, or_false] at hf
  rcases hf with rfl | rfl <;>
    simp [entityKeys.detail, entityKeys.details, entityKeys.all,
      entityKeys.lists, invitationKeys.myList, invitationKeys.all] at hu

/-- Witness for C8: the detail namespace key of slug `acme` itself is not
invalidated by the accept-invitation filters (shown for the first filter,
the caller's own invitation list). -/
theorem acceptInvitation_invalidation_scope_witness :
    ¬ inNamespace (entityKeys.detail "acme") invitationKeys.myList :=
  acceptInvitation_invalidation_scope.2 "acme" (entityKeys.detail "acme")
    ⟨[], (List.append_nil (entityKeys.detail "acme")).symm⟩
    invitationKeys.myList (List.Mem.head [entityKeys.lists])

/-- C10: `useCurrentEntity` outside any `CurrentEntityProvider` (where the
context is `null`) always throws the error
`useCurrentEntity must be used within CurrentEntityProvider`, while
`useCurrentEntityOptional` returns `null` instead of throwing. -/
theorem context_hooks_outside_provider (γ : Type) :
    useCurrentEntityHook (none : Option γ) =
      Except.error "useCurrentEntity must be used within CurrentEntityProvider"
    ∧ useCurrentEntityOptionalHook (none : Option γ) = none :=
  ⟨rfl, rfl⟩

end EntityClientLib
